import Mathlib

/-! Configuration directives: the command type word and the inheritance-merge macros.

A shallow embedding of `src/core/ngx_conf_file.h`.

* The `#define`d flag constants of the command type word are natural numbers
  (bit patterns of a 32-bit `int`, all of them non-negative).
* A signed field (`int`, `time_t`) holds an `Int` and an unsigned field
  (`size_t`, `ngx_msec_t`, `unsigned`, a pointer, a bit pattern) holds a `Nat`:
  the value of the field, which lies in the range of the field's type.
* The `default` argument of a macro is an arbitrary integer expression; its
  value is an `Int`.  The assignment `conf = default` converts that value to
  the type of the field: modulo `2 ^ w` for an unsigned type of `w` bits, and
  to the two's-complement value of the low `w` bits for a signed type.  The
  assignment `conf = prev` copies a value that already has the field's type.
* Each macro is a C statement.  A merge macro names two lvalues, `conf` and
  `prev`; it is embedded as a function from the pair of the two fields before
  the statement to the pair after it.  An init macro names one lvalue and is
  embedded as a function on its value.
-/

namespace NgxConf

/-! ## The command type word -/

def NGX_CONF_NOARGS : Nat := 0x00000001
def NGX_CONF_TAKE1 : Nat := 0x00000002
def NGX_CONF_TAKE2 : Nat := 0x00000004
def NGX_CONF_TAKE3 : Nat := 0x00000008
def NGX_CONF_TAKE4 : Nat := 0x00000010
def NGX_CONF_TAKE5 : Nat := 0x00000020
def NGX_CONF_TAKE6 : Nat := 0x00000040
def NGX_CONF_TAKE7 : Nat := 0x00000080
def NGX_CONF_TAKE8 : Nat := 0x00000100
def NGX_CONF_TAKE9 : Nat := 0x00000200

def NGX_CONF_TAKE12 : Nat := NGX_CONF_TAKE1 ||| NGX_CONF_TAKE2
def NGX_CONF_TAKE13 : Nat := NGX_CONF_TAKE1 ||| NGX_CONF_TAKE3

def NGX_CONF_TAKE23 : Nat := NGX_CONF_TAKE2 ||| NGX_CONF_TAKE3

def NGX_CONF_TAKE1234 : Nat :=
  NGX_CONF_TAKE1 ||| NGX_CONF_TAKE2 ||| NGX_CONF_TAKE3 ||| NGX_CONF_TAKE4

def NGX_CONF_ARGS_NUMBER : Nat := 0x0000ffff
def NGX_CONF_BLOCK : Nat := 0x00010000
def NGX_CONF_FLAG : Nat := 0x00020000
def NGX_CONF_ANY : Nat := 0x00040000
def NGX_CONF_1MORE : Nat := 0x00080000
def NGX_CONF_2MORE : Nat := 0x00100000

def NGX_MAIN_CONF : Nat := 0x01000000

/-- The `FF` byte of the layout comment `0xTTFFAAAA`: the command flags. -/
def COMMAND_FLAGS_MASK : Nat := 0x00ff0000

/-- The `TT` byte of the layout comment `0xTTFFAAAA`: the command type. -/
def COMMAND_TYPE_MASK : Nat := 0xff000000

/-! ## C integer conversions -/

/-- Width of the C type `int` (and of `unsigned`). -/
def INT_BITS : Nat := 32

/-- The value of `(T) x` for an unsigned integer type `T` of `w` bits: `x` modulo `2 ^ w`. -/
def to_unsigned (w : Nat) (x : Int) : Nat := (x % (2 : Int) ^ w).toNat

/-- The value of `(T) x` for a signed integer type `T` of `w` bits: the two's-complement reading
of the low `w` bits of `x`, which is `x` itself when `x` is in the range of `T`. -/
def to_signed (w : Nat) (x : Int) : Int :=
  if x % (2 : Int) ^ w < (2 : Int) ^ (w - 1) then x % (2 : Int) ^ w
  else x % (2 : Int) ^ w - (2 : Int) ^ w

/-- The C expression `conf == k` where `conf` has an unsigned type of `w` bits and `k` is an
`int`.  Under the usual arithmetic conversions `k` is converted to the unsigned type when that
type has at least the rank of `int`; a narrower `conf` is promoted to `int` instead. -/
def eq_unsigned_int (w : Nat) (conf : Nat) (k : Int) : Bool :=
  if INT_BITS ≤ w then conf == to_unsigned w k else (conf : Int) == k

/-! ## The unset sentinels -/

def NGX_CONF_UNSET : Int := -1

/-- The sentinel `(size_t) -1`, for a `size_t` of `w` bits. -/
def NGX_CONF_UNSET_SIZE (w : Nat) : Nat := to_unsigned w (-1)

/-- The sentinel `(ngx_msec_t) -1`, for an `ngx_msec_t` of `w` bits. -/
def NGX_CONF_UNSET_MSEC (w : Nat) : Nat := to_unsigned w (-1)

/-- The pointer `(void *) NGX_CONF_UNSET`, for pointers of `w` bits. -/
def NGX_CONF_UNSET_PTR (w : Nat) : Nat := to_unsigned w NGX_CONF_UNSET

/-- The value `(unsigned) NGX_CONF_UNSET`. -/
def NGX_CONF_UNSET_UNSIGNED : Nat := to_unsigned INT_BITS NGX_CONF_UNSET

def NGX_CONF_BITMASK_SET : Nat := 1

/-! ## Field types -/

/-- The two lvalues a merge macro names: the field of the nested record (`conf`) and the same
field of the enclosing record (`prev`). -/
structure Fields (α : Type) where
  conf : α
  prev : α
deriving DecidableEq, Repr

/-- A counted string: `len` bytes at address `data`. -/
structure ngx_str_t where
  len : Nat
  data : Nat
deriving DecidableEq, Repr

/-- A buffer specification: `num` buffers of `size` bytes. -/
structure ngx_bufs_t where
  num : Int
  size : Nat
deriving DecidableEq, Repr

/-- The `default` argument of the string merge.  It is either a character array (a string
literal), whose `chars` are the bytes before the terminating NUL and which decays to its address
`addr`, or an expression of a pointer type of `bytes` bytes (at least one for every C pointer
type) whose value is `addr`. -/
inductive str_default where
  | array (chars : List Nat) (addr : Nat)
  | pointer (bytes : Nat) (addr : Nat)
deriving DecidableEq, Repr

/-- The C expression `sizeof(default)`: for a character array its bytes and the NUL, for a
pointer the size of the pointer type. -/
def c_sizeof : str_default → Nat
  | str_default.array chars _ => chars.length + 1
  | str_default.pointer bytes _ => bytes

/-- The value of `default` as a character pointer. -/
def c_value : str_default → Nat
  | str_default.array _ addr => addr
  | str_default.pointer _ addr => addr

/-! ## The init macros

The field of `ngx_conf_init_value` is an `int`; the fields of the other init macros are a pointer
of `w` bits, an `unsigned`, a `size_t` of `w` bits and an `ngx_msec_t` of `w` bits. -/

def ngx_conf_init_value (conf dflt : Int) : Int :=
  if conf == NGX_CONF_UNSET then to_signed INT_BITS dflt else conf

def ngx_conf_init_ptr_value (w : Nat) (conf : Nat) (dflt : Int) : Nat :=
  if conf == NGX_CONF_UNSET_PTR w then to_unsigned w dflt else conf

def ngx_conf_init_unsigned_value (conf : Nat) (dflt : Int) : Nat :=
  if conf == NGX_CONF_UNSET_UNSIGNED then to_unsigned INT_BITS dflt else conf

def ngx_conf_init_size_value (w : Nat) (conf : Nat) (dflt : Int) : Nat :=
  if eq_unsigned_int w conf NGX_CONF_UNSET then to_unsigned w dflt else conf

def ngx_conf_init_msec_value (w : Nat) (conf : Nat) (dflt : Int) : Nat :=
  if eq_unsigned_int w conf NGX_CONF_UNSET then to_unsigned w dflt else conf

/-! ## The merge macros

The field of `ngx_conf_merge_value` is an `int`, that of `ngx_conf_merge_sec_value` a signed
`time_t` of `w` bits, those of `ngx_conf_merge_msec_value` and `ngx_conf_merge_size_value` an
`ngx_msec_t` and a `size_t` of `w` bits, and that of `ngx_conf_merge_bitmask_value` a bit pattern
of `w` bits.  In `ngx_bufs_t` the count is an `int` and the size a `size_t` of `w` bits; in
`ngx_str_t` the length is a `size_t`, the type of `sizeof(default) - 1`. -/

def ngx_conf_merge_value (s : Fields Int) (dflt : Int) : Fields Int :=
  if s.conf == NGX_CONF_UNSET then
    Fields.mk (if s.prev == NGX_CONF_UNSET then to_signed INT_BITS dflt else s.prev) s.prev
  else s

def ngx_conf_merge_msec_value (w : Nat) (s : Fields Nat) (dflt : Int) : Fields Nat :=
  if s.conf == NGX_CONF_UNSET_MSEC w then
    Fields.mk (if s.prev == NGX_CONF_UNSET_MSEC w then to_unsigned w dflt else s.prev) s.prev
  else s

def ngx_conf_merge_sec_value (w : Nat) (s : Fields Int) (dflt : Int) : Fields Int :=
  if s.conf == NGX_CONF_UNSET then
    Fields.mk (if s.prev == NGX_CONF_UNSET then to_signed w dflt else s.prev) s.prev
  else s

def ngx_conf_merge_size_value (w : Nat) (s : Fields Nat) (dflt : Int) : Fields Nat :=
  if s.conf == NGX_CONF_UNSET_SIZE w then
    Fields.mk (if s.prev == NGX_CONF_UNSET_SIZE w then to_unsigned w dflt else s.prev) s.prev
  else s

def ngx_conf_merge_str_value (s : Fields ngx_str_t) (dflt : str_default) : Fields ngx_str_t :=
  if s.conf.len == 0 then
    if s.prev.len != 0 then
      -- conf.len = prev.len; conf.data = prev.data;
      let c1 := ngx_str_t.mk s.prev.len s.conf.data
      let c2 := ngx_str_t.mk c1.len s.prev.data
      Fields.mk c2 s.prev
    else
      -- conf.len = sizeof(default) - 1; conf.data = default;
      let c1 := ngx_str_t.mk (c_sizeof dflt - 1) s.conf.data
      let c2 := ngx_str_t.mk c1.len (c_value dflt)
      Fields.mk c2 s.prev
  else s

def ngx_conf_merge_bufs_value (w : Nat) (s : Fields ngx_bufs_t) (default_num : Int)
    (default_size : Int) : Fields ngx_bufs_t :=
  if s.conf.num == 0 then
    if s.prev.num != 0 then
      -- conf.num = prev.num; conf.size = prev.size;
      let c1 := ngx_bufs_t.mk s.prev.num s.conf.size
      let c2 := ngx_bufs_t.mk c1.num s.prev.size
      Fields.mk c2 s.prev
    else
      -- conf.num = default_num; conf.size = default_size;
      let c1 := ngx_bufs_t.mk (to_signed INT_BITS default_num) s.conf.size
      let c2 := ngx_bufs_t.mk c1.num (to_unsigned w default_size)
      Fields.mk c2 s.prev
  else s

def ngx_conf_merge_bitmask_value (w : Nat) (s : Fields Nat) (dflt : Int) : Fields Nat :=
  if s.conf == 0 then
    Fields.mk (if s.prev == 0 then to_unsigned w dflt else s.prev) s.prev
  else s

/-! ## Flag sets of the command type word -/

/-- The argument-count flags: the ten single counts and the four combinations. -/
def args_flags : List Nat :=
  [NGX_CONF_NOARGS, NGX_CONF_TAKE1, NGX_CONF_TAKE2, NGX_CONF_TAKE3, NGX_CONF_TAKE4,
   NGX_CONF_TAKE5, NGX_CONF_TAKE6, NGX_CONF_TAKE7, NGX_CONF_TAKE8, NGX_CONF_TAKE9,
   NGX_CONF_TAKE12, NGX_CONF_TAKE13, NGX_CONF_TAKE23, NGX_CONF_TAKE1234]

/-- The command flags. -/
def command_flags : List Nat :=
  [NGX_CONF_BLOCK, NGX_CONF_FLAG, NGX_CONF_ANY, NGX_CONF_1MORE, NGX_CONF_2MORE]

/-- Every flag of the header that is a single bit. -/
def single_bit_flags : List Nat :=
  [NGX_CONF_NOARGS, NGX_CONF_TAKE1, NGX_CONF_TAKE2, NGX_CONF_TAKE3, NGX_CONF_TAKE4,
   NGX_CONF_TAKE5, NGX_CONF_TAKE6, NGX_CONF_TAKE7, NGX_CONF_TAKE8, NGX_CONF_TAKE9,
   NGX_CONF_BLOCK, NGX_CONF_FLAG, NGX_CONF_ANY, NGX_CONF_1MORE, NGX_CONF_2MORE,
   NGX_MAIN_CONF]

/-- The C expression `f1 | f2 | ... | fn` for a list of flags (`0` for none). -/
def or_flags (fs : List Nat) : Nat := fs.foldr (fun f acc => f ||| acc) 0

/-- The header's flag for a directive taking exactly `n` arguments: `NGX_CONF_NOARGS` for none
and `NGX_CONF_TAKE<n>` for one to nine; there is no such flag beyond nine. -/
def exact_args_flag : Nat → Option Nat
  | 0 => some NGX_CONF_NOARGS
  | 1 => some NGX_CONF_TAKE1
  | 2 => some NGX_CONF_TAKE2
  | 3 => some NGX_CONF_TAKE3
  | 4 => some NGX_CONF_TAKE4
  | 5 => some NGX_CONF_TAKE5
  | 6 => some NGX_CONF_TAKE6
  | 7 => some NGX_CONF_TAKE7
  | 8 => some NGX_CONF_TAKE8
  | 9 => some NGX_CONF_TAKE9
  | _ => none

/-! ## Commands and argument-count validation -/

/-- A directive descriptor, `struct ngx_command_s`.  The setter `set` and the hook `post` are
code and data pointers; they are kept as addresses. -/
structure ngx_command_t where
  name : ngx_str_t
  type : Nat
  set : Nat
  conf : Int
  offset : Int
  post : Nat
deriving DecidableEq, Repr

/-- The error taxonomy of the directive engine. -/
inductive ConfError where
  | SyntaxError
  | UnknownDirective
  | AmbiguousDirective
  | ArgumentCountMismatch (mask : Nat) (actual : Nat)
  | UnexpectedBlock
  | MissingBlock
  | InvalidDirectiveValue
  | ValueOutOfRange
  | DuplicateModule
  | IoError
  | UnexpectedEof
deriving DecidableEq, Repr

/-- Modelled from the spec: the test of a statement's argument count against a command's
argument-shape mask, whose code (the directive parser) is not in this header.  The mask is a
bitset encoding "exactly N args" (bit `1 << N` of the `AAAA` half-word, bit `0` being
"no args"), "1+" (`NGX_CONF_1MORE`) and "2+" (`NGX_CONF_2MORE`). -/
def shape_allows (type : Nat) (nargs : Nat) : Bool :=
  (((type &&& NGX_CONF_ARGS_NUMBER) &&& (1 <<< nargs)) != 0)
    || (((type &&& NGX_CONF_1MORE) != 0) && decide (1 ≤ nargs))
    || (((type &&& NGX_CONF_2MORE) != 0) && decide (2 ≤ nargs))

/-- Modelled from the spec: step 4 of the directive parser, "validate argument count/shape
against the matched command's mask; mismatch gives ArgumentCountMismatch naming expected vs
actual count".  The parser itself is not in this header. -/
def validate_args (cmd : ngx_command_t) (nargs : Nat) : Except ConfError Unit :=
  if shape_allows cmd.type nargs then Except.ok ()
  else Except.error (ConfError.ArgumentCountMismatch cmd.type nargs)

/-! ## A chain of three nested contexts -/

/-- One field of the records of three nested contexts. -/
structure Chain where
  grandparent : Int
  parent : Int
  child : Int
deriving DecidableEq, Repr

/-- Modelled from the spec: the merge resolver "applied bottom-up as each block context
closes", whose driver is not in this header.  The innermost block closes first, so the child
field is merged against the parent field, and then the parent field against the grandparent
field, both with `ngx_conf_merge_value` and the field's default. -/
def merge_bottom_up (c : Chain) (dflt : Int) : Chain :=
  let s1 := ngx_conf_merge_value (Fields.mk c.child c.parent) dflt
  let c1 := Chain.mk c.grandparent s1.prev s1.conf
  let s2 := ngx_conf_merge_value (Fields.mk c1.parent c1.grandparent) dflt
  Chain.mk s2.prev s2.conf c1.child

/-! ## Basic facts about the sentinels -/

theorem to_unsigned_neg_one (w : Nat) : to_unsigned w (-1) = 2 ^ w - 1 := by
  unfold to_unsigned
  have h : (-1 : Int) % (2 : Int) ^ w = (2 : Int) ^ w - 1 := by
    have hpos : (0 : Int) < (2 : Int) ^ w := by positivity
    have e : (-1 : Int) % (2 : Int) ^ w = ((2 : Int) ^ w - 1) % (2 : Int) ^ w := by
      have hs : ((2 : Int) ^ w - 1) = -1 + (2 : Int) ^ w * 1 := by ring
      rw [hs, Int.add_mul_emod_self_left]
    rw [e]
    exact Int.emod_eq_of_lt (by omega) (by omega)
  have hn : ((2 : Int) ^ w - 1) = ((2 ^ w - 1 : Nat) : Int) := by
    have h1 : 1 ≤ 2 ^ w := Nat.one_le_two_pow
    push_cast [Nat.cast_sub h1]
    rfl
  rw [h, hn, Int.toNat_natCast]

theorem unset_size_eq (w : Nat) : NGX_CONF_UNSET_SIZE w = 2 ^ w - 1 :=
  to_unsigned_neg_one w

theorem unset_msec_eq (w : Nat) : NGX_CONF_UNSET_MSEC w = 2 ^ w - 1 :=
  to_unsigned_neg_one w

/-- With an unsigned type of at least the rank of `int`, comparing a field with the `int`
constant `NGX_CONF_UNSET` is comparing it with `-1` converted to the field's type. -/
theorem eq_unsigned_int_unset (w : Nat) (hw : INT_BITS ≤ w) (conf : Nat) :
    eq_unsigned_int w conf NGX_CONF_UNSET = (conf == to_unsigned w (-1)) := by
  unfold eq_unsigned_int NGX_CONF_UNSET
  rw [if_pos hw]

/-- An unsigned field narrower than `int` is promoted to a non-negative `int` and never
compares equal to `NGX_CONF_UNSET`. -/
theorem eq_unsigned_int_narrow (w : Nat) (hw : w < INT_BITS) (conf : Nat) :
    eq_unsigned_int w conf NGX_CONF_UNSET = false := by
  unfold eq_unsigned_int NGX_CONF_UNSET
  rw [if_neg (Nat.not_le.mpr hw)]
  have hne : (conf : Int) ≠ -1 := by omega
  simp [hne]

/-- Converting to an unsigned type keeps a value that the type can represent. -/
theorem to_unsigned_of_range (w : Nat) (x : Int) (h0 : 0 ≤ x) (h1 : x < (2 : Int) ^ w) :
    ((to_unsigned w x : Nat) : Int) = x := by
  unfold to_unsigned
  rw [Int.emod_eq_of_lt h0 h1]
  exact Int.toNat_of_nonneg h0

/-- Converting to a signed type keeps a value that the type can represent. -/
theorem to_signed_of_range (w : Nat) (x : Int) (hw : 0 < w)
    (hlo : -((2 : Int) ^ (w - 1)) ≤ x) (hhi : x < (2 : Int) ^ (w - 1)) :
    to_signed w x = x := by
  have hpow : (2 : Int) ^ w = 2 * (2 : Int) ^ (w - 1) := by
    obtain ⟨k, rfl⟩ : ∃ k, w = k + 1 := ⟨w - 1, by omega⟩
    rw [Nat.add_sub_cancel, pow_succ]
    ring
  have hpos : (0 : Int) < (2 : Int) ^ (w - 1) := by positivity
  unfold to_signed
  rw [hpow]
  generalize (2 : Int) ^ (w - 1) = P at hlo hhi hpos
  by_cases hx : 0 ≤ x
  · have hm : x % (2 * P) = x := Int.emod_eq_of_lt hx (by omega)
    rw [hm, if_pos hhi]
  · have hm : x % (2 * P) = x + 2 * P := by
      have e : x % (2 * P) = (x + 2 * P) % (2 * P) := by
        have hs : x + 2 * P = x + (2 * P) * 1 := by ring
        rw [hs, Int.add_mul_emod_self_left]
      rw [e]
      exact Int.emod_eq_of_lt (by omega) (by omega)
    rw [hm, if_neg (by omega)]
    omega

/-! ## Basic facts about flags -/

theorem or_eq_zero_iff (a b : Nat) : a ||| b = 0 ↔ a = 0 ∧ b = 0 := by
  constructor
  · intro h
    have hbit : ∀ i, (a.testBit i || b.testBit i) = false := by
      intro i
      rw [← Nat.testBit_or, h]
      exact Nat.zero_testBit i
    constructor
    · apply Nat.zero_of_testBit_eq_false
      intro i
      have := hbit i
      simp only [Bool.or_eq_false_iff] at this
      exact this.1
    · apply Nat.zero_of_testBit_eq_false
      intro i
      have := hbit i
      simp only [Bool.or_eq_false_iff] at this
      exact this.2
  · rintro ⟨rfl, rfl⟩
    rfl

/-- Two single-bit flags of the header share a bit only when they are the same flag. -/
theorem single_bit_flags_meet :
    ∀ a ∈ single_bit_flags, ∀ f ∈ single_bit_flags, (a &&& f ≠ 0 ↔ a = f) := by
  decide

/-- The flag for exactly `n` arguments exists for `n` up to nine and is the bit `2 ^ n`. -/
theorem exact_args_flag_eq (n f : Nat) (h : exact_args_flag n = some f) :
    n ≤ 9 ∧ f = 2 ^ n := by
  by_cases hn : n ≤ 9
  · refine ⟨hn, ?_⟩
    interval_cases n <;> simp [exact_args_flag] at h <;> rw [← h] <;> rfl
  · obtain ⟨m, rfl⟩ : ∃ m, n = m + 10 := ⟨n - 10, by omega⟩
    simp [exact_args_flag] at h

/-- Bit `k` of the flag `2 ^ n`, tested as `flag & (1 << k)`, is set only for `k = n`. -/
theorem two_pow_and_shift (n k : Nat) : ((2 ^ n) &&& (1 <<< k) ≠ 0) ↔ k = n := by
  rw [Nat.one_shiftLeft, Nat.and_two_pow, Nat.testBit_two_pow]
  by_cases h : n = k
  · subst h
    simp
  · have h2 : ¬ k = n := fun e => h e.symm
    simp [h, h2]

/-- An exact-count flag lies in the argument-count half-word and carries no command flag. -/
theorem two_pow_masks (n : Nat) (hn : n ≤ 9) :
    (2 ^ n) &&& NGX_CONF_ARGS_NUMBER = 2 ^ n ∧
    (2 ^ n) &&& NGX_CONF_1MORE = 0 ∧
    (2 ^ n) &&& NGX_CONF_2MORE = 0 := by
  interval_cases n <;> decide

/-- Argument-count validation of an exact-count command accepts the declared count only. -/
theorem shape_allows_exact (n k : Nat) (hn : n ≤ 9) :
    shape_allows (2 ^ n) k = decide (k = n) := by
  obtain ⟨h1, h2, h3⟩ := two_pow_masks n hn
  unfold shape_allows
  rw [h1, h2, h3]
  by_cases hk : k = n
  · have := (two_pow_and_shift n k).2 hk
    simp [hk, this]
    rw [hk] at this
    exact this
  · have := (two_pow_and_shift n k).not.2 hk
    simp only [ne_eq, not_not] at this
    simp [hk, this]

/-! ## C1: an unset child takes a set parent's value -/

/-- C1: for each sentinel-based merge macro (value, sec, msec, size), if the child field is the
unset sentinel before the merge and the parent holds a value that is not the sentinel, the child
field equals the parent's value after the merge, whatever the default. -/
theorem merge_unset_child_takes_parent :
    (∀ (s : Fields Int) (d : Int), s.conf = NGX_CONF_UNSET → s.prev ≠ NGX_CONF_UNSET →
      (ngx_conf_merge_value s d).conf = s.prev) ∧
    (∀ (w : Nat) (s : Fields Int) (d : Int), s.conf = NGX_CONF_UNSET → s.prev ≠ NGX_CONF_UNSET →
      (ngx_conf_merge_sec_value w s d).conf = s.prev) ∧
    (∀ (w : Nat) (s : Fields Nat) (d : Int),
      s.conf = NGX_CONF_UNSET_MSEC w → s.prev ≠ NGX_CONF_UNSET_MSEC w →
      (ngx_conf_merge_msec_value w s d).conf = s.prev) ∧
    (∀ (w : Nat) (s : Fields Nat) (d : Int),
      s.conf = NGX_CONF_UNSET_SIZE w → s.prev ≠ NGX_CONF_UNSET_SIZE w →
      (ngx_conf_merge_size_value w s d).conf = s.prev) := by
  refine ⟨?_, ?_, ?_, ?_⟩
  · intro s d hc hp
    simp [ngx_conf_merge_value, hc, hp]
  · intro w s d hc hp
    simp [ngx_conf_merge_sec_value, hc, hp]
  · intro w s d hc hp
    simp [ngx_conf_merge_msec_value, hc, hp]
  · intro w s d hc hp
    simp [ngx_conf_merge_size_value, hc, hp]

theorem merge_unset_child_takes_parent_witness :
    (ngx_conf_merge_value (Fields.mk NGX_CONF_UNSET 7) 3).conf = 7 ∧
    (ngx_conf_merge_sec_value 64 (Fields.mk NGX_CONF_UNSET 60) 0).conf = 60 ∧
    (ngx_conf_merge_msec_value 32 (Fields.mk (NGX_CONF_UNSET_MSEC 32) 500) 1000).conf = 500 ∧
    (ngx_conf_merge_size_value 64 (Fields.mk (NGX_CONF_UNSET_SIZE 64) 4096) 0).conf = 4096 :=
  ⟨merge_unset_child_takes_parent.1 (Fields.mk NGX_CONF_UNSET 7) 3 rfl (by decide),
   merge_unset_child_takes_parent.2.1 64 (Fields.mk NGX_CONF_UNSET 60) 0 rfl (by decide),
   merge_unset_child_takes_parent.2.2.1 32 (Fields.mk (NGX_CONF_UNSET_MSEC 32) 500) 1000 rfl
     (by decide),
   merge_unset_child_takes_parent.2.2.2 64 (Fields.mk (NGX_CONF_UNSET_SIZE 64) 4096) 0 rfl
     (by decide)⟩

/-! ## C2: a set child field is left alone -/

/-- C2, as stated, fails: a child string explicitly set to the empty string, a child buffer
specification with a count of zero and a child bitmask of zero are each overwritten by the
merge when the parent holds a value (here from the parent; with an unset parent, from the
default). -/
theorem merge_overwrites_zero_child :
    (ngx_conf_merge_str_value
        (Fields.mk (ngx_str_t.mk 0 100) (ngx_str_t.mk 3 200))
        (str_default.array [1, 2] 300)).conf
      = ngx_str_t.mk 3 200 ∧
    (ngx_conf_merge_str_value
        (Fields.mk (ngx_str_t.mk 0 100) (ngx_str_t.mk 3 200))
        (str_default.array [1, 2] 300)).conf
      ≠ ngx_str_t.mk 0 100 ∧
    (ngx_conf_merge_bufs_value 32
        (Fields.mk (ngx_bufs_t.mk 0 4096) (ngx_bufs_t.mk 8 1024)) 4 512).conf
      = ngx_bufs_t.mk 8 1024 ∧
    (ngx_conf_merge_bufs_value 32
        (Fields.mk (ngx_bufs_t.mk 0 4096) (ngx_bufs_t.mk 8 1024)) 4 512).conf
      ≠ ngx_bufs_t.mk 0 4096 ∧
    (ngx_conf_merge_bitmask_value 32 (Fields.mk 0 6) 1).conf = 6 ∧
    (ngx_conf_merge_bitmask_value 32 (Fields.mk 0 6) 1).conf ≠ 0 ∧
    (ngx_conf_merge_bitmask_value 32 (Fields.mk 0 0) 1).conf ≠ 0 := by
  decide

/-- C2, amended: for every merge macro, a child field whose value is not the macro's unset
encoding (the sentinel for value, msec, sec and size; a length of zero for str; a count of zero
for bufs; zero for bitmask) is left equal to that value by the merge, for every parent value
and every default. -/
theorem merge_keeps_set_child :
    (∀ (s : Fields Int) (d : Int), s.conf ≠ NGX_CONF_UNSET →
      (ngx_conf_merge_value s d).conf = s.conf) ∧
    (∀ (w : Nat) (s : Fields Nat) (d : Int), s.conf ≠ NGX_CONF_UNSET_MSEC w →
      (ngx_conf_merge_msec_value w s d).conf = s.conf) ∧
    (∀ (w : Nat) (s : Fields Int) (d : Int), s.conf ≠ NGX_CONF_UNSET →
      (ngx_conf_merge_sec_value w s d).conf = s.conf) ∧
    (∀ (w : Nat) (s : Fields Nat) (d : Int), s.conf ≠ NGX_CONF_UNSET_SIZE w →
      (ngx_conf_merge_size_value w s d).conf = s.conf) ∧
    (∀ (s : Fields ngx_str_t) (d : str_default), s.conf.len ≠ 0 →
      (ngx_conf_merge_str_value s d).conf = s.conf) ∧
    (∀ (w : Nat) (s : Fields ngx_bufs_t) (dn ds : Int), s.conf.num ≠ 0 →
      (ngx_conf_merge_bufs_value w s dn ds).conf = s.conf) ∧
    (∀ (w : Nat) (s : Fields Nat) (d : Int), s.conf ≠ 0 →
      (ngx_conf_merge_bitmask_value w s d).conf = s.conf) := by
  refine ⟨?_, ?_, ?_, ?_, ?_, ?_, ?_⟩
  · intro s d h
    simp [ngx_conf_merge_value, h]
  · intro w s d h
    simp [ngx_conf_merge_msec_value, h]
  · intro w s d h
    simp [ngx_conf_merge_sec_value, h]
  · intro w s d h
    simp [ngx_conf_merge_size_value, h]
  · intro s d h
    simp [ngx_conf_merge_str_value, h]
  · intro w s dn ds h
    simp [ngx_conf_merge_bufs_value, h]
  · intro w s d h
    simp [ngx_conf_merge_bitmask_value, h]

theorem merge_keeps_set_child_witness :
    (ngx_conf_merge_value (Fields.mk 0 7) 3).conf = 0 ∧
    (ngx_conf_merge_msec_value 32 (Fields.mk 0 500) 1000).conf = 0 ∧
    (ngx_conf_merge_sec_value 64 (Fields.mk 0 60) 30).conf = 0 ∧
    (ngx_conf_merge_size_value 64 (Fields.mk 0 4096) 8192).conf = 0 ∧
    (ngx_conf_merge_str_value
        (Fields.mk (ngx_str_t.mk 2 100) (ngx_str_t.mk 3 200)) (str_default.array [1] 300)).conf
      = ngx_str_t.mk 2 100 ∧
    (ngx_conf_merge_bufs_value 32
        (Fields.mk (ngx_bufs_t.mk 2 0) (ngx_bufs_t.mk 8 1024)) 4 512).conf
      = ngx_bufs_t.mk 2 0 ∧
    (ngx_conf_merge_bitmask_value 32 (Fields.mk NGX_CONF_BITMASK_SET 6) 2).conf
      = NGX_CONF_BITMASK_SET :=
  ⟨merge_keeps_set_child.1 (Fields.mk 0 7) 3 (by decide),
   merge_keeps_set_child.2.1 32 (Fields.mk 0 500) 1000 (by decide),
   merge_keeps_set_child.2.2.1 64 (Fields.mk 0 60) 30 (by decide),
   merge_keeps_set_child.2.2.2.1 64 (Fields.mk 0 4096) 8192 (by decide),
   merge_keeps_set_child.2.2.2.2.1
     (Fields.mk (ngx_str_t.mk 2 100) (ngx_str_t.mk 3 200)) (str_default.array [1] 300)
     (by decide),
   merge_keeps_set_child.2.2.2.2.2.1 32
     (Fields.mk (ngx_bufs_t.mk 2 0) (ngx_bufs_t.mk 8 1024)) 4 512 (by decide),
   merge_keeps_set_child.2.2.2.2.2.2 32 (Fields.mk NGX_CONF_BITMASK_SET 6) 2 (by decide)⟩

/-! ## C3: merging twice is merging once -/

/-- C3: every merge macro is idempotent: for every child, parent and default (the default may
be the unset sentinel, zero or empty), applying the macro to the fields its first application
left, with the same default, changes nothing. -/
theorem merge_idempotent :
    (∀ (s : Fields Int) (d : Int),
      ngx_conf_merge_value (ngx_conf_merge_value s d) d = ngx_conf_merge_value s d) ∧
    (∀ (w : Nat) (s : Fields Nat) (d : Int),
      ngx_conf_merge_msec_value w (ngx_conf_merge_msec_value w s d) d
        = ngx_conf_merge_msec_value w s d) ∧
    (∀ (w : Nat) (s : Fields Int) (d : Int),
      ngx_conf_merge_sec_value w (ngx_conf_merge_sec_value w s d) d
        = ngx_conf_merge_sec_value w s d) ∧
    (∀ (w : Nat) (s : Fields Nat) (d : Int),
      ngx_conf_merge_size_value w (ngx_conf_merge_size_value w s d) d
        = ngx_conf_merge_size_value w s d) ∧
    (∀ (s : Fields ngx_str_t) (d : str_default),
      ngx_conf_merge_str_value (ngx_conf_merge_str_value s d) d = ngx_conf_merge_str_value s d) ∧
    (∀ (w : Nat) (s : Fields ngx_bufs_t) (dn ds : Int),
      ngx_conf_merge_bufs_value w (ngx_conf_merge_bufs_value w s dn ds) dn ds
        = ngx_conf_merge_bufs_value w s dn ds) ∧
    (∀ (w : Nat) (s : Fields Nat) (d : Int),
      ngx_conf_merge_bitmask_value w (ngx_conf_merge_bitmask_value w s d) d
        = ngx_conf_merge_bitmask_value w s d) := by
  refine ⟨?_, ?_, ?_, ?_, ?_, ?_, ?_⟩
  · intro s d
    unfold ngx_conf_merge_value
    by_cases hc : s.conf = NGX_CONF_UNSET <;> by_cases hp : s.prev = NGX_CONF_UNSET <;>
      by_cases hd : to_signed INT_BITS d = NGX_CONF_UNSET <;> simp [hc, hp, hd]
  · intro w s d
    unfold ngx_conf_merge_msec_value
    by_cases hc : s.conf = NGX_CONF_UNSET_MSEC w <;>
      by_cases hp : s.prev = NGX_CONF_UNSET_MSEC w <;>
      by_cases hd : to_unsigned w d = NGX_CONF_UNSET_MSEC w <;> simp [hc, hp, hd]
  · intro w s d
    unfold ngx_conf_merge_sec_value
    by_cases hc : s.conf = NGX_CONF_UNSET <;> by_cases hp : s.prev = NGX_CONF_UNSET <;>
      by_cases hd : to_signed w d = NGX_CONF_UNSET <;> simp [hc, hp, hd]
  · intro w s d
    unfold ngx_conf_merge_size_value
    by_cases hc : s.conf = NGX_CONF_UNSET_SIZE w <;>
      by_cases hp : s.prev = NGX_CONF_UNSET_SIZE w <;>
      by_cases hd : to_unsigned w d = NGX_CONF_UNSET_SIZE w <;> simp [hc, hp, hd]
  · intro s d
    unfold ngx_conf_merge_str_value
    by_cases hc : s.conf.len = 0 <;> by_cases hp : s.prev.len = 0 <;>
      by_cases hd : c_sizeof d - 1 = 0 <;> simp [hc, hp, hd]
  · intro w s dn ds
    unfold ngx_conf_merge_bufs_value
    by_cases hc : s.conf.num = 0 <;> by_cases hp : s.prev.num = 0 <;>
      by_cases hd : to_signed INT_BITS dn = 0 <;> simp [hc, hp, hd]
  · intro w s d
    unfold ngx_conf_merge_bitmask_value
    by_cases hc : s.conf = 0 <;> by_cases hp : s.prev = 0 <;>
      by_cases hd : to_unsigned w d = 0 <;> simp [hc, hp, hd]

/-! ## C4: with child and parent both unset the default applies -/

/-- C4, as stated, fails: the assignment `conf = default` converts the default to the type of
the field.  With a 32-bit `ngx_msec_t`, child and parent unset and a default of `2 ^ 32`, the
child field is `0` after the merge; with an `int` field, child and parent unset and a default of
`4294967295`, the child field is `-1` after the merge. -/
theorem merge_default_is_converted :
    (ngx_conf_merge_msec_value 32
        (Fields.mk (NGX_CONF_UNSET_MSEC 32) (NGX_CONF_UNSET_MSEC 32)) 4294967296).conf = 0 ∧
    (((ngx_conf_merge_msec_value 32
        (Fields.mk (NGX_CONF_UNSET_MSEC 32) (NGX_CONF_UNSET_MSEC 32)) 4294967296).conf : Nat)
        : Int) ≠ 4294967296 ∧
    (ngx_conf_merge_value (Fields.mk NGX_CONF_UNSET NGX_CONF_UNSET) 4294967295).conf = -1 ∧
    (ngx_conf_merge_value (Fields.mk NGX_CONF_UNSET NGX_CONF_UNSET) 4294967295).conf
      ≠ 4294967295 := by
  decide

/-- C4, amended: for every merge macro, when the child field is unset and the parent field is
unset too (the sentinel for value, msec, sec and size; a length of zero for str; a count of zero
for bufs; zero for bitmask), the child field after the merge is the supplied default converted
to the type of the field, which is the default itself whenever the field's type can represent
it.  For str the length is `sizeof(default) - 1` and the data is `default`: the number of
characters and the address of a character array, one less than the pointer size and the pointer
value of a pointer.  For bufs the count is `default_num` and the size is `default_size`, each
converted to the type of its component. -/
theorem merge_both_unset_gives_default :
    (∀ (s : Fields Int) (d : Int), s.conf = NGX_CONF_UNSET → s.prev = NGX_CONF_UNSET →
      (ngx_conf_merge_value s d).conf = to_signed INT_BITS d ∧
      (-((2 : Int) ^ (INT_BITS - 1)) ≤ d → d < (2 : Int) ^ (INT_BITS - 1) →
        (ngx_conf_merge_value s d).conf = d)) ∧
    (∀ (w : Nat) (s : Fields Nat) (d : Int),
      s.conf = NGX_CONF_UNSET_MSEC w → s.prev = NGX_CONF_UNSET_MSEC w →
      (ngx_conf_merge_msec_value w s d).conf = to_unsigned w d ∧
      (0 ≤ d → d < (2 : Int) ^ w → (((ngx_conf_merge_msec_value w s d).conf : Nat) : Int) = d)) ∧
    (∀ (w : Nat) (s : Fields Int) (d : Int), s.conf = NGX_CONF_UNSET → s.prev = NGX_CONF_UNSET →
      (ngx_conf_merge_sec_value w s d).conf = to_signed w d ∧
      (0 < w → -((2 : Int) ^ (w - 1)) ≤ d → d < (2 : Int) ^ (w - 1) →
        (ngx_conf_merge_sec_value w s d).conf = d)) ∧
    (∀ (w : Nat) (s : Fields Nat) (d : Int),
      s.conf = NGX_CONF_UNSET_SIZE w → s.prev = NGX_CONF_UNSET_SIZE w →
      (ngx_conf_merge_size_value w s d).conf = to_unsigned w d ∧
      (0 ≤ d → d < (2 : Int) ^ w → (((ngx_conf_merge_size_value w s d).conf : Nat) : Int) = d)) ∧
    (∀ (s : Fields ngx_str_t) (d : str_default), s.conf.len = 0 → s.prev.len = 0 →
      (ngx_conf_merge_str_value s d).conf.len = c_sizeof d - 1 ∧
      (ngx_conf_merge_str_value s d).conf.data = c_value d) ∧
    (∀ (s : Fields ngx_str_t) (chars : List Nat) (addr : Nat),
      s.conf.len = 0 → s.prev.len = 0 →
      (ngx_conf_merge_str_value s (str_default.array chars addr)).conf
        = ngx_str_t.mk chars.length addr) ∧
    (∀ (s : Fields ngx_str_t) (bytes addr : Nat), s.conf.len = 0 → s.prev.len = 0 →
      (ngx_conf_merge_str_value s (str_default.pointer bytes addr)).conf
        = ngx_str_t.mk (bytes - 1) addr) ∧
    (∀ (w : Nat) (s : Fields ngx_bufs_t) (dn ds : Int), s.conf.num = 0 → s.prev.num = 0 →
      (ngx_conf_merge_bufs_value w s dn ds).conf
        = ngx_bufs_t.mk (to_signed INT_BITS dn) (to_unsigned w ds) ∧
      (-((2 : Int) ^ (INT_BITS - 1)) ≤ dn → dn < (2 : Int) ^ (INT_BITS - 1) →
        0 ≤ ds → ds < (2 : Int) ^ w →
        (ngx_conf_merge_bufs_value w s dn ds).conf.num = dn ∧
        (((ngx_conf_merge_bufs_value w s dn ds).conf.size : Nat) : Int) = ds)) ∧
    (∀ (w : Nat) (s : Fields Nat) (d : Int), s.conf = 0 → s.prev = 0 →
      (ngx_conf_merge_bitmask_value w s d).conf = to_unsigned w d ∧
      (0 ≤ d → d < (2 : Int) ^ w →
        (((ngx_conf_merge_bitmask_value w s d).conf : Nat) : Int) = d)) := by
  refine ⟨?_, ?_, ?_, ?_, ?_, ?_, ?_, ?_, ?_⟩
  · intro s d hc hp
    have hr : (ngx_conf_merge_value s d).conf = to_signed INT_BITS d := by
      simp [ngx_conf_merge_value, hc, hp]
    refine ⟨hr, fun hlo hhi => ?_⟩
    rw [hr]
    exact to_signed_of_range INT_BITS d (by decide) hlo hhi
  · intro w s d hc hp
    have hr : (ngx_conf_merge_msec_value w s d).conf = to_unsigned w d := by
      simp [ngx_conf_merge_msec_value, hc, hp]
    refine ⟨hr, fun h0 h1 => ?_⟩
    rw [hr]
    exact to_unsigned_of_range w d h0 h1
  · intro w s d hc hp
    have hr : (ngx_conf_merge_sec_value w s d).conf = to_signed w d := by
      simp [ngx_conf_merge_sec_value, hc, hp]
    refine ⟨hr, fun hw hlo hhi => ?_⟩
    rw [hr]
    exact to_signed_of_range w d hw hlo hhi
  · intro w s d hc hp
    have hr : (ngx_conf_merge_size_value w s d).conf = to_unsigned w d := by
      simp [ngx_conf_merge_size_value, hc, hp]
    refine ⟨hr, fun h0 h1 => ?_⟩
    rw [hr]
    exact to_unsigned_of_range w d h0 h1
  · intro s d hc hp
    simp [ngx_conf_merge_str_value, hc, hp]
  · intro s chars addr hc hp
    simp [ngx_conf_merge_str_value, hc, hp, c_sizeof, c_value]
  · intro s bytes addr hc hp
    simp [ngx_conf_merge_str_value, hc, hp, c_sizeof, c_value]
  · intro w s dn ds hc hp
    have hr : (ngx_conf_merge_bufs_value w s dn ds).conf
        = ngx_bufs_t.mk (to_signed INT_BITS dn) (to_unsigned w ds) := by
      simp [ngx_conf_merge_bufs_value, hc, hp]
    refine ⟨hr, fun hlo hhi h0 h1 => ?_⟩
    rw [hr]
    exact ⟨to_signed_of_range INT_BITS dn (by decide) hlo hhi, to_unsigned_of_range w ds h0 h1⟩
  · intro w s d hc hp
    have hr : (ngx_conf_merge_bitmask_value w s d).conf = to_unsigned w d := by
      simp [ngx_conf_merge_bitmask_value, hc, hp]
    refine ⟨hr, fun h0 h1 => ?_⟩
    rw [hr]
    exact to_unsigned_of_range w d h0 h1

theorem merge_both_unset_gives_default_witness :
    (ngx_conf_merge_value (Fields.mk NGX_CONF_UNSET NGX_CONF_UNSET) 3).conf = 3 ∧
    (((ngx_conf_merge_msec_value 32
        (Fields.mk (NGX_CONF_UNSET_MSEC 32) (NGX_CONF_UNSET_MSEC 32)) 1000).conf : Nat) : Int)
      = 1000 ∧
    (ngx_conf_merge_sec_value 64 (Fields.mk NGX_CONF_UNSET NGX_CONF_UNSET) 30).conf = 30 ∧
    (((ngx_conf_merge_size_value 64
        (Fields.mk (NGX_CONF_UNSET_SIZE 64) (NGX_CONF_UNSET_SIZE 64)) 8192).conf : Nat) : Int)
      = 8192 ∧
    (ngx_conf_merge_str_value
        (Fields.mk (ngx_str_t.mk 0 100) (ngx_str_t.mk 0 200))
        (str_default.array [47, 120] 300)).conf = ngx_str_t.mk 2 300 ∧
    (ngx_conf_merge_str_value
        (Fields.mk (ngx_str_t.mk 0 100) (ngx_str_t.mk 0 200))
        (str_default.pointer 8 300)).conf = ngx_str_t.mk 7 300 ∧
    ((ngx_conf_merge_bufs_value 32
        (Fields.mk (ngx_bufs_t.mk 0 4096) (ngx_bufs_t.mk 0 1024)) 4 512).conf.num = 4 ∧
     (((ngx_conf_merge_bufs_value 32
        (Fields.mk (ngx_bufs_t.mk 0 4096) (ngx_bufs_t.mk 0 1024)) 4 512).conf.size : Nat) : Int)
      = 512) ∧
    (((ngx_conf_merge_bitmask_value 32 (Fields.mk 0 0) 5).conf : Nat) : Int) = 5 :=
  ⟨(merge_both_unset_gives_default.1 (Fields.mk NGX_CONF_UNSET NGX_CONF_UNSET) 3 rfl rfl).2
     (by decide) (by decide),
   (merge_both_unset_gives_default.2.1 32
     (Fields.mk (NGX_CONF_UNSET_MSEC 32) (NGX_CONF_UNSET_MSEC 32)) 1000 rfl rfl).2
     (by decide) (by decide),
   (merge_both_unset_gives_default.2.2.1 64 (Fields.mk NGX_CONF_UNSET NGX_CONF_UNSET) 30
     rfl rfl).2 (by decide) (by decide) (by decide),
   (merge_both_unset_gives_default.2.2.2.1 64
     (Fields.mk (NGX_CONF_UNSET_SIZE 64) (NGX_CONF_UNSET_SIZE 64)) 8192 rfl rfl).2
     (by decide) (by decide),
   merge_both_unset_gives_default.2.2.2.2.2.1
     (Fields.mk (ngx_str_t.mk 0 100) (ngx_str_t.mk 0 200)) [47, 120] 300 rfl rfl,
   merge_both_unset_gives_default.2.2.2.2.2.2.1
     (Fields.mk (ngx_str_t.mk 0 100) (ngx_str_t.mk 0 200)) 8 300 rfl rfl,
   (merge_both_unset_gives_default.2.2.2.2.2.2.2.1 32
     (Fields.mk (ngx_bufs_t.mk 0 4096) (ngx_bufs_t.mk 0 1024)) 4 512 rfl rfl).2
     (by decide) (by decide) (by decide) (by decide),
   (merge_both_unset_gives_default.2.2.2.2.2.2.2.2 32 (Fields.mk 0 0) 5 rfl rfl).2
     (by decide) (by decide)⟩

/-! ## C5: a chain of three contexts merged bottom-up -/

/-- C5, as stated, fails: with the grandparent holding 5, the parent and the child unset and a
default of 0, merging the child against the parent first and the parent against the grandparent
second leaves the child at the default 0, not at 5; only the parent resolves to 5. -/
theorem bottom_up_child_misses_grandparent :
    merge_bottom_up (Chain.mk 5 NGX_CONF_UNSET NGX_CONF_UNSET) 0 = Chain.mk 5 5 0 ∧
    (merge_bottom_up (Chain.mk 5 NGX_CONF_UNSET NGX_CONF_UNSET) 0).child ≠ 5 := by
  decide

/-- C5, amended: for a chain of three nested contexts whose grandparent holds a value `V` other
than the sentinel while the parent and the child are unset, merging bottom-up (child against
parent first, then parent against grandparent) resolves the parent field to `V` and the child
field to the default (converted to the `int` field, so the default itself when an `int` can
represent it), the child being merged while its parent is still unset; the child field resolves
to `V` when the parent field is merged against the grandparent field first and the child field
against the merged parent field second. -/
theorem chain_merge_order (V d : Int) (hV : V ≠ NGX_CONF_UNSET) :
    (merge_bottom_up (Chain.mk V NGX_CONF_UNSET NGX_CONF_UNSET) d).parent = V ∧
    (merge_bottom_up (Chain.mk V NGX_CONF_UNSET NGX_CONF_UNSET) d).child
      = to_signed INT_BITS d ∧
    (-((2 : Int) ^ (INT_BITS - 1)) ≤ d → d < (2 : Int) ^ (INT_BITS - 1) →
      (merge_bottom_up (Chain.mk V NGX_CONF_UNSET NGX_CONF_UNSET) d).child = d) ∧
    (merge_bottom_up (Chain.mk V NGX_CONF_UNSET NGX_CONF_UNSET) d).grandparent = V ∧
    (ngx_conf_merge_value
      (Fields.mk NGX_CONF_UNSET
        (ngx_conf_merge_value (Fields.mk NGX_CONF_UNSET V) d).conf) d).conf = V := by
  -- the child is merged first, against a parent that is still unset
  have hchild : ngx_conf_merge_value (Fields.mk NGX_CONF_UNSET NGX_CONF_UNSET) d
      = Fields.mk (to_signed INT_BITS d) NGX_CONF_UNSET := by
    simp [ngx_conf_merge_value]
  -- the parent is merged second, against the grandparent
  have hparent : ngx_conf_merge_value (Fields.mk NGX_CONF_UNSET V) d = Fields.mk V V := by
    simp [ngx_conf_merge_value, hV]
  have hc : (merge_bottom_up (Chain.mk V NGX_CONF_UNSET NGX_CONF_UNSET) d).child
      = to_signed INT_BITS d := by
    simp only [merge_bottom_up, hchild, hparent]
  refine ⟨?_, hc, ?_, ?_, ?_⟩
  · simp only [merge_bottom_up, hchild, hparent]
  · intro hlo hhi
    rw [hc]
    exact to_signed_of_range INT_BITS d (by decide) hlo hhi
  · simp only [merge_bottom_up, hchild, hparent]
  · rw [hparent]
    exact congrArg Fields.conf hparent

theorem chain_merge_order_witness :
    (5 : Int) ≠ NGX_CONF_UNSET ∧
    (merge_bottom_up (Chain.mk 5 NGX_CONF_UNSET NGX_CONF_UNSET) 0).parent = 5 ∧
    (merge_bottom_up (Chain.mk 5 NGX_CONF_UNSET NGX_CONF_UNSET) 0).child = 0 ∧
    (merge_bottom_up (Chain.mk 5 NGX_CONF_UNSET NGX_CONF_UNSET) 0).grandparent = 5 ∧
    (ngx_conf_merge_value
      (Fields.mk NGX_CONF_UNSET
        (ngx_conf_merge_value (Fields.mk NGX_CONF_UNSET 5) 0).conf) 0).conf = 5 :=
  ⟨by decide,
   (chain_merge_order 5 0 (by decide)).1,
   (chain_merge_order 5 0 (by decide)).2.2.1 (by decide) (by decide),
   (chain_merge_order 5 0 (by decide)).2.2.2.1,
   (chain_merge_order 5 0 (by decide)).2.2.2.2⟩

/-! ## C8: a non-sentinel default leaves no field unset -/

/-- C8, as stated, fails: a default that is not the sentinel can convert to the sentinel.  With a
32-bit `ngx_msec_t`, child and parent unset and the default `0x1FFFFFFFF`, the merged field and
the initialised field are both the sentinel `0xFFFFFFFF`; with an `int` field, child and parent
unset and the default `4294967295`, the merged field and the initialised field are both `-1`. -/
theorem default_converts_to_sentinel :
    (8589934591 : Int) ≠ ((NGX_CONF_UNSET_MSEC 32 : Nat) : Int) ∧
    (ngx_conf_merge_msec_value 32
        (Fields.mk (NGX_CONF_UNSET_MSEC 32) (NGX_CONF_UNSET_MSEC 32)) 8589934591).conf
      = NGX_CONF_UNSET_MSEC 32 ∧
    ngx_conf_init_msec_value 32 (NGX_CONF_UNSET_MSEC 32) 8589934591 = NGX_CONF_UNSET_MSEC 32 ∧
    (4294967295 : Int) ≠ NGX_CONF_UNSET ∧
    (ngx_conf_merge_value (Fields.mk NGX_CONF_UNSET NGX_CONF_UNSET) 4294967295).conf
      = NGX_CONF_UNSET ∧
    ngx_conf_init_value NGX_CONF_UNSET 4294967295 = NGX_CONF_UNSET := by
  decide

/-- C8, amended: after a sentinel-based merge macro (value, msec, sec, size) is applied with a
default whose value, converted to the type of the field, is not the unset sentinel, the child
field is not the unset sentinel, for every child and parent value; and after an init macro
(value, ptr, unsigned, size, msec) is applied with such a default, the field is not the sentinel.
Every default that the field's type can represent and that is not the sentinel is such a
default.  The unsigned types `size_t` and `ngx_msec_t`, declared outside this header, have a
width `w` of at least the rank of `int`. -/
theorem non_sentinel_default_sets_field :
    (∀ (s : Fields Int) (d : Int), to_signed INT_BITS d ≠ NGX_CONF_UNSET →
      (ngx_conf_merge_value s d).conf ≠ NGX_CONF_UNSET) ∧
    (∀ (w : Nat) (s : Fields Nat) (d : Int), to_unsigned w d ≠ NGX_CONF_UNSET_MSEC w →
      (ngx_conf_merge_msec_value w s d).conf ≠ NGX_CONF_UNSET_MSEC w) ∧
    (∀ (w : Nat) (s : Fields Int) (d : Int), to_signed w d ≠ NGX_CONF_UNSET →
      (ngx_conf_merge_sec_value w s d).conf ≠ NGX_CONF_UNSET) ∧
    (∀ (w : Nat) (s : Fields Nat) (d : Int), to_unsigned w d ≠ NGX_CONF_UNSET_SIZE w →
      (ngx_conf_merge_size_value w s d).conf ≠ NGX_CONF_UNSET_SIZE w) ∧
    (∀ (c d : Int), to_signed INT_BITS d ≠ NGX_CONF_UNSET →
      ngx_conf_init_value c d ≠ NGX_CONF_UNSET) ∧
    (∀ (w : Nat) (c : Nat) (d : Int), to_unsigned w d ≠ NGX_CONF_UNSET_PTR w →
      ngx_conf_init_ptr_value w c d ≠ NGX_CONF_UNSET_PTR w) ∧
    (∀ (c : Nat) (d : Int), to_unsigned INT_BITS d ≠ NGX_CONF_UNSET_UNSIGNED →
      ngx_conf_init_unsigned_value c d ≠ NGX_CONF_UNSET_UNSIGNED) ∧
    (∀ (w : Nat) (c : Nat) (d : Int), INT_BITS ≤ w → to_unsigned w d ≠ NGX_CONF_UNSET_SIZE w →
      ngx_conf_init_size_value w c d ≠ NGX_CONF_UNSET_SIZE w) ∧
    (∀ (w : Nat) (c : Nat) (d : Int), INT_BITS ≤ w → to_unsigned w d ≠ NGX_CONF_UNSET_MSEC w →
      ngx_conf_init_msec_value w c d ≠ NGX_CONF_UNSET_MSEC w) ∧
    (∀ (w : Nat) (d : Int), 0 < w → -((2 : Int) ^ (w - 1)) ≤ d → d < (2 : Int) ^ (w - 1) →
      d ≠ NGX_CONF_UNSET → to_signed w d ≠ NGX_CONF_UNSET) ∧
    (∀ (w : Nat) (d : Int), 0 ≤ d → d < (2 : Int) ^ w →
      d ≠ ((to_unsigned w (-1) : Nat) : Int) → to_unsigned w d ≠ to_unsigned w (-1)) := by
  refine ⟨?_, ?_, ?_, ?_, ?_, ?_, ?_, ?_, ?_, ?_, ?_⟩
  · intro s d hd
    unfold ngx_conf_merge_value
    by_cases hc : s.conf = NGX_CONF_UNSET <;> by_cases hp : s.prev = NGX_CONF_UNSET <;>
      simp [hc, hp, hd]
  · intro w s d hd
    unfold ngx_conf_merge_msec_value
    by_cases hc : s.conf = NGX_CONF_UNSET_MSEC w <;>
      by_cases hp : s.prev = NGX_CONF_UNSET_MSEC w <;> simp [hc, hp, hd]
  · intro w s d hd
    unfold ngx_conf_merge_sec_value
    by_cases hc : s.conf = NGX_CONF_UNSET <;> by_cases hp : s.prev = NGX_CONF_UNSET <;>
      simp [hc, hp, hd]
  · intro w s d hd
    unfold ngx_conf_merge_size_value
    by_cases hc : s.conf = NGX_CONF_UNSET_SIZE w <;>
      by_cases hp : s.prev = NGX_CONF_UNSET_SIZE w <;> simp [hc, hp, hd]
  · intro c d hd
    unfold ngx_conf_init_value
    by_cases hc : c = NGX_CONF_UNSET <;> simp [hc, hd]
  · intro w c d hd
    unfold ngx_conf_init_ptr_value
    by_cases hc : c = NGX_CONF_UNSET_PTR w <;> simp [hc, hd]
  · intro c d hd
    unfold ngx_conf_init_unsigned_value
    by_cases hc : c = NGX_CONF_UNSET_UNSIGNED <;> simp [hc, hd]
  · intro w c d hw hd
    unfold ngx_conf_init_size_value
    rw [eq_unsigned_int_unset w hw]
    unfold NGX_CONF_UNSET_SIZE at hd ⊢
    by_cases hc : c = to_unsigned w (-1) <;> simp [hc, hd]
  · intro w c d hw hd
    unfold ngx_conf_init_msec_value
    rw [eq_unsigned_int_unset w hw]
    unfold NGX_CONF_UNSET_MSEC at hd ⊢
    by_cases hc : c = to_unsigned w (-1) <;> simp [hc, hd]
  · intro w d hw hlo hhi hd
    rw [to_signed_of_range w d hw hlo hhi]
    exact hd
  · intro w d h0 h1 hd heq
    apply hd
    rw [← heq]
    exact (to_unsigned_of_range w d h0 h1).symm

theorem non_sentinel_default_sets_field_witness :
    (ngx_conf_merge_value (Fields.mk NGX_CONF_UNSET NGX_CONF_UNSET) 3).conf ≠ NGX_CONF_UNSET ∧
    (ngx_conf_merge_msec_value 32
        (Fields.mk (NGX_CONF_UNSET_MSEC 32) (NGX_CONF_UNSET_MSEC 32)) 1000).conf
      ≠ NGX_CONF_UNSET_MSEC 32 ∧
    (ngx_conf_merge_sec_value 64 (Fields.mk NGX_CONF_UNSET NGX_CONF_UNSET) 30).conf
      ≠ NGX_CONF_UNSET ∧
    (ngx_conf_merge_size_value 64
        (Fields.mk (NGX_CONF_UNSET_SIZE 64) (NGX_CONF_UNSET_SIZE 64)) 8192).conf
      ≠ NGX_CONF_UNSET_SIZE 64 ∧
    ngx_conf_init_value NGX_CONF_UNSET 1 ≠ NGX_CONF_UNSET ∧
    ngx_conf_init_ptr_value 32 (NGX_CONF_UNSET_PTR 32) 0 ≠ NGX_CONF_UNSET_PTR 32 ∧
    ngx_conf_init_unsigned_value NGX_CONF_UNSET_UNSIGNED 80 ≠ NGX_CONF_UNSET_UNSIGNED ∧
    ngx_conf_init_size_value 64 (NGX_CONF_UNSET_SIZE 64) 8192 ≠ NGX_CONF_UNSET_SIZE 64 ∧
    ngx_conf_init_msec_value 32 (NGX_CONF_UNSET_MSEC 32) 1000 ≠ NGX_CONF_UNSET_MSEC 32 ∧
    to_signed 32 3 ≠ NGX_CONF_UNSET ∧
    to_unsigned 32 1000 ≠ to_unsigned 32 (-1) :=
  ⟨non_sentinel_default_sets_field.1 (Fields.mk NGX_CONF_UNSET NGX_CONF_UNSET) 3 (by decide),
   non_sentinel_default_sets_field.2.1 32
     (Fields.mk (NGX_CONF_UNSET_MSEC 32) (NGX_CONF_UNSET_MSEC 32)) 1000 (by decide),
   non_sentinel_default_sets_field.2.2.1 64 (Fields.mk NGX_CONF_UNSET NGX_CONF_UNSET) 30
     (by decide),
   non_sentinel_default_sets_field.2.2.2.1 64
     (Fields.mk (NGX_CONF_UNSET_SIZE 64) (NGX_CONF_UNSET_SIZE 64)) 8192 (by decide),
   non_sentinel_default_sets_field.2.2.2.2.1 NGX_CONF_UNSET 1 (by decide),
   non_sentinel_default_sets_field.2.2.2.2.2.1 32 (NGX_CONF_UNSET_PTR 32) 0 (by decide),
   non_sentinel_default_sets_field.2.2.2.2.2.2.1 NGX_CONF_UNSET_UNSIGNED 80 (by decide),
   non_sentinel_default_sets_field.2.2.2.2.2.2.2.1 64 (NGX_CONF_UNSET_SIZE 64) 8192
     (by decide) (by decide),
   non_sentinel_default_sets_field.2.2.2.2.2.2.2.2.1 32 (NGX_CONF_UNSET_MSEC 32) 1000
     (by decide) (by decide),
   non_sentinel_default_sets_field.2.2.2.2.2.2.2.2.2.1 32 3
     (by decide) (by decide) (by decide) (by decide),
   non_sentinel_default_sets_field.2.2.2.2.2.2.2.2.2.2 32 1000
     (by decide) (by decide) (by decide)⟩

/-! ## C9: initialising is merging against an unset parent -/

/-- C9: initialising a field agrees with merging it against an unset parent, for every field
value and default: `ngx_conf_init_value` with `ngx_conf_merge_value` against `NGX_CONF_UNSET`,
`ngx_conf_init_size_value` with `ngx_conf_merge_size_value` against `NGX_CONF_UNSET_SIZE`, and
`ngx_conf_init_msec_value` with `ngx_conf_merge_msec_value` against `NGX_CONF_UNSET_MSEC`; the
init macros' comparison of the unsigned field with the `int` constant `-1`, converted modulo
`2 ^ w`, holds exactly of the sentinel the merge macros test.  The unsigned types `size_t` and
`ngx_msec_t`, declared outside this header, have a width `w` of at least the rank of `int`. -/
theorem init_agrees_with_merge_unset_parent :
    (∀ (c d : Int),
      ngx_conf_init_value c d = (ngx_conf_merge_value (Fields.mk c NGX_CONF_UNSET) d).conf) ∧
    (∀ (w : Nat) (c : Nat) (d : Int), INT_BITS ≤ w →
      ngx_conf_init_size_value w c d
        = (ngx_conf_merge_size_value w (Fields.mk c (NGX_CONF_UNSET_SIZE w)) d).conf) ∧
    (∀ (w : Nat) (c : Nat) (d : Int), INT_BITS ≤ w →
      ngx_conf_init_msec_value w c d
        = (ngx_conf_merge_msec_value w (Fields.mk c (NGX_CONF_UNSET_MSEC w)) d).conf) ∧
    (∀ (w : Nat) (c : Nat), INT_BITS ≤ w →
      (eq_unsigned_int w c NGX_CONF_UNSET = true ↔ c = NGX_CONF_UNSET_SIZE w)) ∧
    (∀ (w : Nat) (c : Nat), INT_BITS ≤ w →
      (eq_unsigned_int w c NGX_CONF_UNSET = true ↔ c = NGX_CONF_UNSET_MSEC w)) ∧
    (∀ (w : Nat), NGX_CONF_UNSET_SIZE w = 2 ^ w - 1 ∧ NGX_CONF_UNSET_MSEC w = 2 ^ w - 1) := by
  refine ⟨?_, ?_, ?_, ?_, ?_, ?_⟩
  · intro c d
    unfold ngx_conf_init_value ngx_conf_merge_value
    by_cases hc : c = NGX_CONF_UNSET <;> simp [hc]
  · intro w c d hw
    unfold ngx_conf_init_size_value ngx_conf_merge_size_value
    rw [eq_unsigned_int_unset w hw]
    unfold NGX_CONF_UNSET_SIZE
    by_cases hc : c = to_unsigned w (-1) <;> simp [hc]
  · intro w c d hw
    unfold ngx_conf_init_msec_value ngx_conf_merge_msec_value
    rw [eq_unsigned_int_unset w hw]
    unfold NGX_CONF_UNSET_MSEC
    by_cases hc : c = to_unsigned w (-1) <;> simp [hc]
  · intro w c hw
    rw [eq_unsigned_int_unset w hw]
    unfold NGX_CONF_UNSET_SIZE
    simp
  · intro w c hw
    rw [eq_unsigned_int_unset w hw]
    unfold NGX_CONF_UNSET_MSEC
    simp
  · intro w
    exact ⟨unset_size_eq w, unset_msec_eq w⟩

theorem init_agrees_with_merge_unset_parent_witness :
    INT_BITS ≤ 64 ∧ INT_BITS ≤ 32 ∧
    ngx_conf_init_size_value 64 (NGX_CONF_UNSET_SIZE 64) 8192
      = (ngx_conf_merge_size_value 64
          (Fields.mk (NGX_CONF_UNSET_SIZE 64) (NGX_CONF_UNSET_SIZE 64)) 8192).conf ∧
    ngx_conf_init_msec_value 32 (NGX_CONF_UNSET_MSEC 32) 1000
      = (ngx_conf_merge_msec_value 32
          (Fields.mk (NGX_CONF_UNSET_MSEC 32) (NGX_CONF_UNSET_MSEC 32)) 1000).conf ∧
    (eq_unsigned_int 64 18446744073709551615 NGX_CONF_UNSET = true
      ↔ 18446744073709551615 = NGX_CONF_UNSET_SIZE 64) ∧
    (eq_unsigned_int 32 4294967295 NGX_CONF_UNSET = true
      ↔ 4294967295 = NGX_CONF_UNSET_MSEC 32) :=
  ⟨by decide, by decide,
   init_agrees_with_merge_unset_parent.2.1 64 (NGX_CONF_UNSET_SIZE 64) 8192 (by decide),
   init_agrees_with_merge_unset_parent.2.2.1 32 (NGX_CONF_UNSET_MSEC 32) 1000 (by decide),
   init_agrees_with_merge_unset_parent.2.2.2.1 64 18446744073709551615 (by decide),
   init_agrees_with_merge_unset_parent.2.2.2.2.1 32 4294967295 (by decide)⟩

/-! ## C10: a merge writes the child field only -/

/-- C10: every merge macro writes only the child field: the parent field has the same value
after the merge as before; and for the compound variants (str, bufs) the two components of the
child are either both left as they were, or both taken from the parent, or both taken from the
default, never one from each. -/
theorem merge_writes_child_only :
    (∀ (s : Fields Int) (d : Int), (ngx_conf_merge_value s d).prev = s.prev) ∧
    (∀ (w : Nat) (s : Fields Nat) (d : Int), (ngx_conf_merge_msec_value w s d).prev = s.prev) ∧
    (∀ (w : Nat) (s : Fields Int) (d : Int), (ngx_conf_merge_sec_value w s d).prev = s.prev) ∧
    (∀ (w : Nat) (s : Fields Nat) (d : Int), (ngx_conf_merge_size_value w s d).prev = s.prev) ∧
    (∀ (s : Fields ngx_str_t) (d : str_default), (ngx_conf_merge_str_value s d).prev = s.prev) ∧
    (∀ (w : Nat) (s : Fields ngx_bufs_t) (dn ds : Int),
      (ngx_conf_merge_bufs_value w s dn ds).prev = s.prev) ∧
    (∀ (w : Nat) (s : Fields Nat) (d : Int),
      (ngx_conf_merge_bitmask_value w s d).prev = s.prev) ∧
    (∀ (s : Fields ngx_str_t) (d : str_default),
      ((ngx_conf_merge_str_value s d).conf.len = s.conf.len ∧
        (ngx_conf_merge_str_value s d).conf.data = s.conf.data) ∨
      ((ngx_conf_merge_str_value s d).conf.len = s.prev.len ∧
        (ngx_conf_merge_str_value s d).conf.data = s.prev.data) ∨
      ((ngx_conf_merge_str_value s d).conf.len = c_sizeof d - 1 ∧
        (ngx_conf_merge_str_value s d).conf.data = c_value d)) ∧
    (∀ (w : Nat) (s : Fields ngx_bufs_t) (dn ds : Int),
      ((ngx_conf_merge_bufs_value w s dn ds).conf.num = s.conf.num ∧
        (ngx_conf_merge_bufs_value w s dn ds).conf.size = s.conf.size) ∨
      ((ngx_conf_merge_bufs_value w s dn ds).conf.num = s.prev.num ∧
        (ngx_conf_merge_bufs_value w s dn ds).conf.size = s.prev.size) ∨
      ((ngx_conf_merge_bufs_value w s dn ds).conf.num = to_signed INT_BITS dn ∧
        (ngx_conf_merge_bufs_value w s dn ds).conf.size = to_unsigned w ds)) := by
  refine ⟨?_, ?_, ?_, ?_, ?_, ?_, ?_, ?_, ?_⟩
  · intro s d
    unfold ngx_conf_merge_value
    by_cases hc : s.conf = NGX_CONF_UNSET <;> simp [hc]
  · intro w s d
    unfold ngx_conf_merge_msec_value
    by_cases hc : s.conf = NGX_CONF_UNSET_MSEC w <;> simp [hc]
  · intro w s d
    unfold ngx_conf_merge_sec_value
    by_cases hc : s.conf = NGX_CONF_UNSET <;> simp [hc]
  · intro w s d
    unfold ngx_conf_merge_size_value
    by_cases hc : s.conf = NGX_CONF_UNSET_SIZE w <;> simp [hc]
  · intro s d
    unfold ngx_conf_merge_str_value
    by_cases hc : s.conf.len = 0 <;> by_cases hp : s.prev.len = 0 <;> simp [hc, hp]
  · intro w s dn ds
    unfold ngx_conf_merge_bufs_value
    by_cases hc : s.conf.num = 0 <;> by_cases hp : s.prev.num = 0 <;> simp [hc, hp]
  · intro w s d
    unfold ngx_conf_merge_bitmask_value
    by_cases hc : s.conf = 0 <;> simp [hc]
  · intro s d
    unfold ngx_conf_merge_str_value
    by_cases hc : s.conf.len = 0 <;> by_cases hp : s.prev.len = 0 <;> simp [hc, hp]
  · intro w s dn ds
    unfold ngx_conf_merge_bufs_value
    by_cases hc : s.conf.num = 0 <;> by_cases hp : s.prev.num = 0 <;> simp [hc, hp]

/-! ## C6: a directive taking exactly N arguments -/

/-- C6: for a directive declared with the shape "exactly N args" (type `NGX_CONF_NOARGS` for
N = 0, `NGX_CONF_TAKE<N>` for N from 1 to 9), argument-count validation against the command's
mask accepts a statement with N arguments and rejects statements with N + 1 and with N - 1
arguments with ArgumentCountMismatch; in the flag encoding the bit for count k, `1 << k`, is
set in the mask if and only if k = N, so every count other than N is rejected. -/
theorem exact_args_validation (cmd : ngx_command_t) (N : Nat)
    (h : exact_args_flag N = some cmd.type) :
    validate_args cmd N = Except.ok () ∧
    validate_args cmd (N + 1)
      = Except.error (ConfError.ArgumentCountMismatch cmd.type (N + 1)) ∧
    (0 < N → validate_args cmd (N - 1)
      = Except.error (ConfError.ArgumentCountMismatch cmd.type (N - 1))) ∧
    (∀ k : Nat, (cmd.type &&& (1 <<< k) ≠ 0) ↔ k = N) ∧
    (∀ k : Nat, validate_args cmd k = Except.ok () ↔ k = N) ∧
    (∀ k : Nat, k ≠ N → validate_args cmd k
      = Except.error (ConfError.ArgumentCountMismatch cmd.type k)) := by
  obtain ⟨hN, ht⟩ := exact_args_flag_eq N cmd.type h
  have hv : ∀ k : Nat, validate_args cmd k
      = if k = N then Except.ok () else
          Except.error (ConfError.ArgumentCountMismatch cmd.type k) := by
    intro k
    unfold validate_args
    rw [ht, shape_allows_exact N k hN]
    by_cases hk : k = N <;> simp [hk]
  refine ⟨?_, ?_, ?_, ?_, ?_, ?_⟩
  · rw [hv]
    simp
  · rw [hv]
    simp
  · intro hpos
    rw [hv]
    have : N - 1 ≠ N := by omega
    simp [this]
  · intro k
    rw [ht]
    exact two_pow_and_shift N k
  · intro k
    rw [hv]
    by_cases hk : k = N <;> simp [hk]
  · intro k hk
    rw [hv]
    simp [hk]

theorem exact_args_validation_witness :
    exact_args_flag 2 = some (ngx_command_t.mk (ngx_str_t.mk 6 4096) NGX_CONF_TAKE2 0 0 8 0).type ∧
    validate_args (ngx_command_t.mk (ngx_str_t.mk 6 4096) NGX_CONF_TAKE2 0 0 8 0) 2
      = Except.ok () ∧
    validate_args (ngx_command_t.mk (ngx_str_t.mk 6 4096) NGX_CONF_TAKE2 0 0 8 0) 3
      = Except.error (ConfError.ArgumentCountMismatch NGX_CONF_TAKE2 3) ∧
    validate_args (ngx_command_t.mk (ngx_str_t.mk 6 4096) NGX_CONF_TAKE2 0 0 8 0) 1
      = Except.error (ConfError.ArgumentCountMismatch NGX_CONF_TAKE2 1) :=
  ⟨rfl,
   (exact_args_validation (ngx_command_t.mk (ngx_str_t.mk 6 4096) NGX_CONF_TAKE2 0 0 8 0) 2
     rfl).1,
   (exact_args_validation (ngx_command_t.mk (ngx_str_t.mk 6 4096) NGX_CONF_TAKE2 0 0 8 0) 2
     rfl).2.1,
   (exact_args_validation (ngx_command_t.mk (ngx_str_t.mk 6 4096) NGX_CONF_TAKE2 0 0 8 0) 2
     rfl).2.2.1 (by decide)⟩

/-! ## C7: the layout of the command type word -/

/-- C7: the command type word follows the layout `0xTTFFAAAA`: every argument-count flag
(`NGX_CONF_NOARGS`, `NGX_CONF_TAKE1` to `NGX_CONF_TAKE9` and the combinations) lies within
`NGX_CONF_ARGS_NUMBER`, every command flag within `0x00ff0000` and `NGX_MAIN_CONF` within
`0xff000000`; the three fields do not overlap; the single-bit flags are pairwise disjoint, so
that OR-ing any collection of them loses no information: a single-bit flag is set in the OR
exactly when it is one of the flags that were OR-ed. -/
theorem command_type_layout :
    (∀ f ∈ args_flags, f &&& NGX_CONF_ARGS_NUMBER = f) ∧
    (∀ f ∈ command_flags, f &&& COMMAND_FLAGS_MASK = f) ∧
    NGX_MAIN_CONF &&& COMMAND_TYPE_MASK = NGX_MAIN_CONF ∧
    (NGX_CONF_ARGS_NUMBER &&& COMMAND_FLAGS_MASK = 0 ∧
      NGX_CONF_ARGS_NUMBER &&& COMMAND_TYPE_MASK = 0 ∧
      COMMAND_FLAGS_MASK &&& COMMAND_TYPE_MASK = 0) ∧
    List.Pairwise (fun a b => a &&& b = 0) single_bit_flags ∧
    (∀ (fs : List Nat) (f : Nat), (∀ x ∈ fs, x ∈ single_bit_flags) → f ∈ single_bit_flags →
      ((or_flags fs) &&& f ≠ 0 ↔ f ∈ fs)) := by
  refine ⟨by decide, by decide, by decide, by decide, by decide, ?_⟩
  intro fs f hfs hf
  induction fs with
  | nil => simp [or_flags]
  | cons a rest ih =>
    have ha : a ∈ single_bit_flags := hfs a (List.mem_cons_self a rest)
    have hrest : ∀ x ∈ rest, x ∈ single_bit_flags :=
      fun x hx => hfs x (List.mem_cons_of_mem a hx)
    have hstep : or_flags (a :: rest) = a ||| or_flags rest := rfl
    rw [hstep, Nat.and_distrib_right, ne_eq, or_eq_zero_iff, List.mem_cons]
    have h1 := single_bit_flags_meet a ha f hf
    have h2 := ih hrest
    constructor
    · intro hne
      by_cases hz : a &&& f = 0
      · right
        exact h2.1 (fun h0 => hne ⟨hz, h0⟩)
      · left
        exact (h1.1 hz).symm
    · rintro (rfl | hmem)
      · intro hboth
        exact (h1.2 rfl) hboth.1
      · intro hboth
        exact (h2.2 hmem) hboth.2

theorem command_type_layout_witness :
    NGX_CONF_TAKE12 &&& NGX_CONF_ARGS_NUMBER = NGX_CONF_TAKE12 ∧
    NGX_CONF_2MORE &&& COMMAND_FLAGS_MASK = NGX_CONF_2MORE ∧
    ((or_flags [NGX_MAIN_CONF, NGX_CONF_BLOCK, NGX_CONF_NOARGS]) &&& NGX_CONF_BLOCK ≠ 0
      ↔ NGX_CONF_BLOCK ∈ [NGX_MAIN_CONF, NGX_CONF_BLOCK, NGX_CONF_NOARGS]) ∧
    ((or_flags [NGX_MAIN_CONF, NGX_CONF_BLOCK, NGX_CONF_NOARGS]) &&& NGX_CONF_TAKE1 ≠ 0
      ↔ NGX_CONF_TAKE1 ∈ [NGX_MAIN_CONF, NGX_CONF_BLOCK, NGX_CONF_NOARGS]) :=
  ⟨command_type_layout.1 NGX_CONF_TAKE12 (by decide),
   command_type_layout.2.1 NGX_CONF_2MORE (by decide),
   command_type_layout.2.2.2.2.2 [NGX_MAIN_CONF, NGX_CONF_BLOCK, NGX_CONF_NOARGS] NGX_CONF_BLOCK
     (by decide) (by decide),
   command_type_layout.2.2.2.2.2 [NGX_MAIN_CONF, NGX_CONF_BLOCK, NGX_CONF_NOARGS] NGX_CONF_TAKE1
     (by decide) (by decide)⟩

end NgxConf
